import Mathlib

/-!
Shallow embedding of `src/steam-appmanifest.py`, a GTK utility that fetches a
Steam profile's game list, shows it as a filterable toggle list, and writes
`appmanifest_<appid>.acf` files for the toggled games.

Strings are modelled as `List Char`.  The GTK `ListStore` holding
`(toggled, app_id, name)` rows becomes a `List GameRow`; the
`TreeModelFilter` view is the list filtered by the `visible_func`
`game_filter`.  Network and filesystem effects are abstracted as explicit
parameters (`NetResult`, `isDir`, `fsOk`) so the callbacks become pure state
transformers.
-/

set_option autoImplicit false

/-- Python `str.isspace` on the ASCII whitespace characters (the default
`str.strip` removes exactly the characters for which this holds; the full
Unicode whitespace set is out of scope, all inputs of interest are ASCII). -/
def isPySpace (c : Char) : Bool :=
  c = ' ' || c = '\t' || c = '\n' || c = '\r' || c = '\x0b' || c = '\x0c'

/-- Python `str.lower` (ASCII case mapping). -/
def pyLower (s : List Char) : List Char :=
  s.map Char.toLower

/-- Python `str.strip()`: drop leading and trailing whitespace. -/
def pyStrip (s : List Char) : List Char :=
  ((s.dropWhile isPySpace).reverse.dropWhile isPySpace).reverse

/-- Python substring containment `needle in hay` for strings. -/
def listContainsSub (needle : List Char) : List Char → Bool
  | [] => needle.isEmpty
  | c :: rest => needle.isPrefixOf (c :: rest) || listContainsSub needle rest

/-- One row of `self.games_store`: `(toggled, app_id, name)`. -/
structure GameRow where
  toggled : Bool
  app_id : List Char
  name : List Char
  deriving DecidableEq

/-- The mutable state of the window that the claims are about:
`self.games_store` and `self.search_text` (the latter is stored already
stripped and lowercased, exactly as `on_search_changed` writes it). -/
structure Model where
  games_store : List GameRow
  search_text : List Char
  deriving DecidableEq

/-- `game_filter`, the `visible_func` of the filtered store: an empty search
shows everything, otherwise a row is visible when the stored search text is a
substring of the lowercased game name. -/
def game_filter (m : Model) (row : GameRow) : Bool :=
  if m.search_text.isEmpty then true
  else listContainsSub m.search_text (pyLower row.name)

/-- `on_search_changed`: store the entry text stripped and lowercased, then
refilter (the refilter is pure view refresh, no further state change). -/
def on_search_changed (m : Model) (entryText : List Char) : Model :=
  { m with search_text := pyLower (pyStrip entryText) }

/-- The rows presented by `self.filtered_store`: the rows of the underlying
store passing `game_filter`, in store order. -/
def visibleRecords (m : Model) : List GameRow :=
  m.games_store.filter (game_filter m)

/-- All toggled rows of the underlying store, filter-independent (the rows
`on_download_click` writes manifests for). -/
def selectedRecords (m : Model) : List GameRow :=
  m.games_store.filter (fun r => r.toggled)

/-- Flip the `toggled` field of one row, as
`self.games_store[real_iter][0] = not current_state` does. -/
def flipRow (r : GameRow) : GameRow :=
  { r with toggled := !r.toggled }

/-- Core of `on_toggle_toggled`: `path` indexes the filtered view, i.e. the
`p`-th row satisfying `vis`; that underlying row is flipped in place.  An
out-of-range path leaves the list unchanged (GTK would not deliver one). -/
def toggleAt (vis : GameRow → Bool) : List GameRow → Nat → List GameRow
  | [], _ => []
  | r :: rs, p =>
    if vis r then
      match p with
      | 0 => flipRow r :: rs
      | Nat.succ q => r :: toggleAt vis rs q
    else r :: toggleAt vis rs p

/-- The underlying-store index that `convert_iter_to_child_iter` resolves a
filtered-view path to: the index of the `p`-th row satisfying `vis`. -/
def childIndex (vis : GameRow → Bool) : List GameRow → Nat → Option Nat
  | [], _ => none
  | r :: rs, p =>
    if vis r then
      match p with
      | 0 => some 0
      | Nat.succ q => (childIndex vis rs q).map (· + 1)
    else (childIndex vis rs p).map (· + 1)

/-- `on_toggle_toggled`: convert the path in the filtered store to an iter of
the underlying store and flip that row's toggle. -/
def on_toggle_toggled (m : Model) (path : Nat) : Model :=
  { m with games_store := toggleAt (game_filter m) m.games_store path }

/-- The error kinds of §7 of the spec, one per early-return branch of the
callbacks (`show_message` with the corresponding message). -/
inductive FetchError
  | emptyInput
  | networkError
  | parseError
  deriving DecidableEq

/-- One `<game>` element of the response, as seen through
`game.find('appID')` / `game.find('name')`: the outer `Option` is whether the
child element exists, the inner one its `.text` (`none` for an empty
element). -/
structure GameElem where
  appID : Option (Option (List Char))
  name : Option (Option (List Char))
  deriving DecidableEq

/-- `game.find(tag).text if game.find(tag) is not None else None`. -/
def optText (findResult : Option (Option (List Char))) : Option (List Char) :=
  match findResult with
  | some child => child
  | none => none

/-- Python truthiness of an optional string: `None` and `""` are falsy. -/
def pyTruthy : Option (List Char) → Bool
  | none => false
  | some s => !s.isEmpty

/-- The body of the `for game in games_xml` loop: `if app_id and name:`
append `[False, app_id, name]`, otherwise skip the element silently. -/
def recordOf (g : GameElem) : Option (List Char × List Char) :=
  if pyTruthy (optText g.appID) && pyTruthy (optText g.name) then
    some ((optText g.appID).getD [], (optText g.name).getD [])
  else none

/-- The `(app_id, name)` records appended by the parse loop, in document
order. -/
def parseGames (gs : List GameElem) : List (List Char × List Char) :=
  gs.filterMap recordOf

/-- Outcome of `ET.fromstring(response.text)` followed by `root.iter('game')`:
either the body is malformed XML, or it yields a sequence of game elements. -/
inductive XmlParse
  | malformed
  | games (gs : List GameElem)
  deriving DecidableEq

/-- Outcome of `requests.get(url, timeout=10)` + `raise_for_status()`:
a `requests.RequestException`, or a body to be parsed. -/
inductive NetResult
  | failure
  | success (body : XmlParse)
  deriving DecidableEq

/-- What one click of Refresh leaves behind: the new window state, the error
reported via `show_message` (if any), and whether `requests.get` was
reached. -/
structure RefreshOutcome where
  model : Model
  error : Option FetchError
  networkCalled : Bool
  deriving DecidableEq

/-- The URL built by `on_refresh_click`, `none` when the stripped profile id
is empty and the function returns before building it. -/
def requestUrl (entryText : List Char) : Option (List Char) :=
  let profile_id := pyStrip entryText
  if profile_id.isEmpty then none
  else some ("https://steamcommunity.com/id/".data ++ profile_id
             ++ "/games?tab=all&xml=1".data)

/-- `on_refresh_click`: strip the profile entry; empty ⇒ message and return
before any network call; network failure ⇒ message and return with the store
untouched; then `self.games_store.clear()` happens BEFORE the parse, so a
`ParseError` leaves the store cleared; on success the parsed records are
appended with `toggled = False`. -/
def on_refresh_click (m : Model) (entryText : List Char) (net : NetResult) :
    RefreshOutcome :=
  let profile_id := pyStrip entryText
  if profile_id.isEmpty then
    { model := m, error := some FetchError.emptyInput, networkCalled := false }
  else
    match net with
    | NetResult.failure =>
      { model := m, error := some FetchError.networkError, networkCalled := true }
    | NetResult.success XmlParse.malformed =>
      { model := { games_store := [], search_text := m.search_text },
        error := some FetchError.parseError, networkCalled := true }
    | NetResult.success (XmlParse.games gs) =>
      { model := { games_store :=
                     (parseGames gs).map
                       (fun pr => { toggled := false, app_id := pr.1, name := pr.2 }),
                   search_text := m.search_text },
        error := none, networkCalled := true }

/-- `os.path.join` for the paths this program builds (POSIX separator; the
second component never starts with a separator here). -/
def pathJoin (a b : List Char) : List Char :=
  if a.isEmpty then b
  else if a.getLast? = some '/' then a ++ b
  else a ++ '/' :: b

/-- `os.path.join(steam_path, f"appmanifest_{app_id}.acf")`. -/
def manifestPath (steam_path app_id : List Char) : List Char :=
  pathJoin steam_path ("appmanifest_".data ++ app_id ++ ".acf".data)

/-- `STEAM_MANIFEST_TEMPLATE.format(app_id=app_id, app_name=game_name)`:
the template of lines 21-39 with `\x7b\x7b`/`\x7d\x7d` unescaped and the two
fields substituted (`app_name` appears in both `name` and `installdir`). -/
def manifestContent (app_id app_name : List Char) : List Char :=
  "\"AppState\"\n\x7b\n    \"AppID\"        \"".data ++ app_id
  ++ "\"\n    \"Universe\"      \"1\"\n    \"name\"          \"".data ++ app_name
  ++ "\"\n    \"StateFlags\"    \"4\"\n    \"installdir\"    \"".data ++ app_name
  ++ ("\"\n    \"LastUpdated\"   \"0\"\n    \"UpdateResult\"  \"0\"\n"
      ++ "    \"SizeOnDisk\"    \"0\"\n    \"buildid\"       \"0\"\n"
      ++ "    \"LastOwner\"     \"0\"\n    \"BytesToDownload\"   \"0\"\n"
      ++ "    \"BytesDownloaded\"   \"0\"\n    \"BytesToStage\"      \"0\"\n"
      ++ "    \"BytesStaged\"       \"0\"\n\x7d\n").data

/-- What one click of Download leaves behind: whether the library-path check
failed, the `(path, content)` pairs successfully written in order, the names
reported via per-file error messages, and `created_count`. -/
structure WriteOutcome where
  invalidPath : Bool
  writes : List (List Char × List Char)
  failures : List (List Char)
  created_count : Nat
  deriving DecidableEq

/-- The `for row in self.games_store` loop of `on_download_click`: toggled
rows are rendered and written; `fsOk path` abstracts whether the `open`/
`write` succeeds or raises `OSError`; a failure records the game name (the
error message) and the loop continues with the remaining rows. -/
def writeLoop (steam_path : List Char) (fsOk : List Char → Bool) :
    List GameRow → WriteOutcome
  | [] => { invalidPath := false, writes := [], failures := [], created_count := 0 }
  | row :: rest =>
    let restOut := writeLoop steam_path fsOk rest
    if row.toggled then
      let mp := manifestPath steam_path row.app_id
      if fsOk mp then
        { invalidPath := false,
          writes := (mp, manifestContent row.app_id row.name) :: restOut.writes,
          failures := restOut.failures,
          created_count := restOut.created_count + 1 }
      else
        { invalidPath := false, writes := restOut.writes,
          failures := row.name :: restOut.failures,
          created_count := restOut.created_count }
    else restOut

/-- `on_download_click`: `isDir` abstracts `os.path.isdir(steam_path)`; when
it fails the callback shows a message and returns without touching the
filesystem, otherwise it runs the write loop over the full store. -/
def on_download_click (m : Model) (steam_path : List Char) (isDir : Bool)
    (fsOk : List Char → Bool) : WriteOutcome :=
  if !isDir then
    { invalidPath := true, writes := [], failures := [], created_count := 0 }
  else writeLoop steam_path fsOk m.games_store

/-- Spec-side predicate, from §4.1/§8 of the spec: a `<game>` element yields a
record iff "it has both an identifier child and a name child with non-empty
text". -/
def goodGame (g : GameElem) : Bool :=
  (match g.appID with
   | some (some s) => !s.isEmpty
   | _ => false) &&
  (match g.name with
   | some (some s) => !s.isEmpty
   | _ => false)

/-- Spec-side predicate, from §3/§8 of the spec: `hay` "contains `needle` as a
case-insensitive substring". -/
def containsCI (needle hay : List Char) : Bool :=
  listContainsSub (pyLower needle) (pyLower hay)

/-! ### Helper lemmas -/

theorem list_filter_true {α : Type} (l : List α) : l.filter (fun _ => true) = l := by
  induction l with
  | nil => rfl
  | cons a t ih => simp [List.filter, ih]

theorem pyLower_isEmpty (s : List Char) : (pyLower s).isEmpty = s.isEmpty := by
  cases s <;> rfl

theorem pyStrip_of_all_space (s : List Char) (h : s.all isPySpace = true) :
    pyStrip s = [] := by
  unfold pyStrip
  have h1 : s.dropWhile isPySpace = [] :=
    List.dropWhile_eq_nil_iff.mpr (fun x hx => List.all_eq_true.mp h x hx)
  rw [h1]
  rfl

theorem visible_of_empty_search (m : Model) (h : m.search_text = []) :
    visibleRecords m = m.games_store := by
  unfold visibleRecords
  have hg : game_filter m = fun _ => true := by
    funext r
    simp [game_filter, h]
  rw [hg, list_filter_true]

theorem game_filter_after_search (m : Model) (s : List Char) :
    game_filter (on_search_changed m s)
      = fun r => (pyStrip s).isEmpty || containsCI (pyStrip s) r.name := by
  funext r
  show (if (pyLower (pyStrip s)).isEmpty then true
        else listContainsSub (pyLower (pyStrip s)) (pyLower r.name))
      = ((pyStrip s).isEmpty || containsCI (pyStrip s) r.name)
  rw [pyLower_isEmpty]
  cases h : (pyStrip s).isEmpty <;> simp [containsCI]

/-! ### Claim theorems -/

/-- C1, amended: after `setFilter(s)` the visible records are exactly the
records of the batch whose `displayName` contains the **whitespace-trimmed**
`s` as a case-insensitive substring, in original order; when the trimmed `s`
is empty (in particular after `setFilter("")`) every record is visible.  (The
claim as stated, with the untrimmed `s` as the needle, is refuted by
`setFilter_visible_cex`.) -/
theorem setFilter_visible_spec (m : Model) (s : List Char) :
    visibleRecords (on_search_changed m s)
      = m.games_store.filter
          (fun r => (pyStrip s).isEmpty || containsCI (pyStrip s) r.name) := by
  unfold visibleRecords
  rw [game_filter_after_search]
  rfl

/-- C1, counterexample to the claim as stated: with the single-record batch
`[name = "ba"]` and the non-empty filter string `" a"`, the code strips the
filter to `"a"` and shows the record, but no record's name contains `" a"`
case-insensitively, so the visible set differs from the claimed one. -/
theorem setFilter_visible_cex :
    ([' ', 'a'] : List Char) ≠ []
    ∧ visibleRecords
        (on_search_changed
          { games_store := [{ toggled := false, app_id := ['1'], name := ['b', 'a'] }],
            search_text := [] }
          [' ', 'a'])
      ≠ [{ toggled := false, app_id := ['1'], name := ['b', 'a'] }].filter
          (fun r => containsCI [' ', 'a'] r.name) := by
  decide

/-- C10: the filter string is stripped before matching, so a whitespace-only
search string leaves the model exactly as the empty search string does and
makes every record of the batch visible. -/
theorem whitespace_filter_shows_all (m : Model) (s : List Char)
    (h : s.all isPySpace = true) :
    on_search_changed m s = on_search_changed m []
    ∧ visibleRecords (on_search_changed m s) = m.games_store := by
  have hs : pyStrip s = [] := pyStrip_of_all_space s h
  constructor
  · unfold on_search_changed
    rw [hs]
    rfl
  · exact visible_of_empty_search _ (by simp [on_search_changed, hs, pyLower])

/-- C10 witness at the whitespace-only string `" \t"` and a one-record
batch. -/
theorem whitespace_filter_shows_all_witness :
    ([' ', '\t'] : List Char).all isPySpace = true
    ∧ (on_search_changed
          { games_store := [{ toggled := false, app_id := ['1'], name := ['x'] }],
            search_text := ['x'] } [' ', '\t']
        = on_search_changed
          { games_store := [{ toggled := false, app_id := ['1'], name := ['x'] }],
            search_text := ['x'] } []
      ∧ visibleRecords
          (on_search_changed
            { games_store := [{ toggled := false, app_id := ['1'], name := ['x'] }],
              search_text := ['x'] } [' ', '\t'])
        = [{ toggled := false, app_id := ['1'], name := ['x'] }]) :=
  ⟨by decide, whitespace_filter_shows_all _ _ (by decide)⟩

theorem toggleAt_set (vis : GameRow → Bool) :
    ∀ (l : List GameRow) (p i : Nat) (r : GameRow),
      childIndex vis l p = some i → l[i]? = some r →
      toggleAt vis l p = l.set i (flipRow r) := by
  intro l
  induction l with
  | nil =>
    intro p i r h _
    simp [childIndex] at h
  | cons a t ih =>
    intro p i r h hr
    by_cases hv : vis a = true
    · cases p with
      | zero =>
        simp [childIndex, hv] at h
        subst h
        simp at hr
        subst hr
        simp [toggleAt, hv]
      | succ q =>
        simp [childIndex, hv] at h
        rcases h with ⟨j, hj, hji⟩
        subst hji
        simp at hr
        have := ih q j r hj hr
        simp [toggleAt, hv, this]
    · simp [childIndex, hv] at h
      rcases h with ⟨j, hj, hji⟩
      subst hji
      simp at hr
      have := ih p j r hj hr
      simp [toggleAt, hv, this]

/-- C3, amended: a toggle handle is a position in the **currently** visible
list; `on_toggle_toggled` flips exactly the underlying record at that visible
position under the filter active at invocation (every other record is
unchanged, as expressed by `List.set`), and clearing the filter afterwards
shows the full batch containing that flipped record.  (The claim as stated,
that a handle obtained under an earlier filter resolves to the same record
regardless of the filter active at invocation, is refuted by
`toggle_stale_handle_cex`.) -/
theorem toggle_visible_position (m : Model) (p i : Nat) (r : GameRow)
    (h : childIndex (game_filter m) m.games_store p = some i)
    (hr : m.games_store[i]? = some r) :
    (on_toggle_toggled m p).games_store = m.games_store.set i (flipRow r)
    ∧ (flipRow r).toggled = !r.toggled
    ∧ visibleRecords (on_search_changed (on_toggle_toggled m p) [])
        = m.games_store.set i (flipRow r) := by
  have h1 : (on_toggle_toggled m p).games_store = m.games_store.set i (flipRow r) :=
    toggleAt_set _ _ _ _ _ h hr
  refine ⟨h1, rfl, ?_⟩
  rw [visible_of_empty_search _ rfl]
  exact h1

/-- C3 witness: a one-record batch under the empty filter; toggling visible
position 0 flips record 0 and the record stays visible after the filter is
cleared. -/
theorem toggle_visible_position_witness :
    childIndex
        (game_filter { games_store := [{ toggled := false, app_id := ['1'], name := ['g'] }],
                       search_text := [] })
        [{ toggled := false, app_id := ['1'], name := ['g'] }] 0 = some 0
    ∧ ([{ toggled := false, app_id := ['1'], name := ['g'] }] : List GameRow)[0]?
        = some { toggled := false, app_id := ['1'], name := ['g'] }
    ∧ ((on_toggle_toggled
          { games_store := [{ toggled := false, app_id := ['1'], name := ['g'] }],
            search_text := [] } 0).games_store
        = [{ toggled := false, app_id := ['1'], name := ['g'] }].set 0
            (flipRow { toggled := false, app_id := ['1'], name := ['g'] })
      ∧ (flipRow { toggled := false, app_id := ['1'], name := ['g'] }).toggled
          = !({ toggled := false, app_id := ['1'], name := ['g'] } : GameRow).toggled
      ∧ visibleRecords
          (on_search_changed
            (on_toggle_toggled
              { games_store := [{ toggled := false, app_id := ['1'], name := ['g'] }],
                search_text := [] } 0) [])
        = [{ toggled := false, app_id := ['1'], name := ['g'] }].set 0
            (flipRow { toggled := false, app_id := ['1'], name := ['g'] })) :=
  ⟨by decide, by decide, toggle_visible_position _ _ _ _ (by decide) (by decide)⟩

/-- C3, counterexample to the claim as stated: in the batch
`[x, ay, az]` (all unselected) the handle "visible position 1" obtained under
the empty filter designates the record named `ay`; after the filter changes
to `"a"` (visible: `ay, az`), invoking toggle on that same handle flips `az`
instead of `ay` — the handle does not resolve to the same underlying record
regardless of the filter active at invocation. -/
theorem toggle_stale_handle_cex :
    (visibleRecords
        { games_store :=
            [{ toggled := false, app_id := ['1'], name := ['x'] },
             { toggled := false, app_id := ['2'], name := ['a', 'y'] },
             { toggled := false, app_id := ['3'], name := ['a', 'z'] }],
          search_text := [] })[1]?
      = some { toggled := false, app_id := ['2'], name := ['a', 'y'] }
    ∧ (on_toggle_toggled
          (on_search_changed
            { games_store :=
                [{ toggled := false, app_id := ['1'], name := ['x'] },
                 { toggled := false, app_id := ['2'], name := ['a', 'y'] },
                 { toggled := false, app_id := ['3'], name := ['a', 'z'] }],
              search_text := [] } ['a']) 1).games_store
      = [{ toggled := false, app_id := ['1'], name := ['x'] },
         { toggled := false, app_id := ['2'], name := ['a', 'y'] },
         { toggled := true, app_id := ['3'], name := ['a', 'z'] }] := by
  decide

/-- C9: when the profile entry strips to the empty string, Refresh reports
`EmptyInput`, leaves the model untouched, builds no URL and issues no GET;
when it strips to a non-empty string, the GET is issued against the built
URL. -/
theorem empty_profile_no_network (m : Model) (entryText : List Char)
    (net : NetResult) :
    if (pyStrip entryText).isEmpty then
      on_refresh_click m entryText net
          = { model := m, error := some FetchError.emptyInput, networkCalled := false }
        ∧ requestUrl entryText = none
    else (on_refresh_click m entryText net).networkCalled = true
        ∧ (requestUrl entryText).isSome = true := by
  cases h : (pyStrip entryText).isEmpty with
  | false =>
    simp only [Bool.false_eq_true, if_false]
    constructor
    · cases net with
      | failure => simp [on_refresh_click, h]
      | success body => cases body <;> simp [on_refresh_click, h]
    · simp [requestUrl, h]
  | true =>
    simp [on_refresh_click, requestUrl, h]

/-- C2, amended: a `ParseError` is reported, but the stored batch is **not**
left unchanged: `games_store.clear()` runs before the parse, so after a
malformed-XML response the store is empty and the prior records (with their
selected flags) are gone; the filter string is untouched.  (The claim as
stated is refuted by `parse_error_preserves_store_cex`.) -/
theorem parse_error_clears_store (m : Model) (entryText : List Char)
    (h : (pyStrip entryText).isEmpty = false) :
    on_refresh_click m entryText (NetResult.success XmlParse.malformed)
      = { model := { games_store := [], search_text := m.search_text },
          error := some FetchError.parseError, networkCalled := true } := by
  simp [on_refresh_click, h]

/-- C2 witness at a concrete prior batch with a selected record. -/
theorem parse_error_clears_store_witness :
    (pyStrip ['p']).isEmpty = false
    ∧ on_refresh_click
        { games_store := [{ toggled := true, app_id := ['1'], name := ['x'] }],
          search_text := [] }
        ['p'] (NetResult.success XmlParse.malformed)
      = { model := { games_store := [], search_text := [] },
          error := some FetchError.parseError, networkCalled := true } :=
  ⟨by decide, parse_error_clears_store _ _ (by decide)⟩

/-- C2, counterexample to the claim as stated: a fetch over the prior batch
`[(selected, "1", "x")]` that fails with `ParseError` reports the error, yet
the stored batch is no longer the prior one — it has been cleared. -/
theorem parse_error_preserves_store_cex :
    (on_refresh_click
        { games_store := [{ toggled := true, app_id := ['1'], name := ['x'] }],
          search_text := [] }
        ['p'] (NetResult.success XmlParse.malformed)).error
      = some FetchError.parseError
    ∧ (on_refresh_click
        { games_store := [{ toggled := true, app_id := ['1'], name := ['x'] }],
          search_text := [] }
        ['p'] (NetResult.success XmlParse.malformed)).model.games_store
      ≠ [{ toggled := true, app_id := ['1'], name := ['x'] }] := by
  decide

/-- C4: a successful fetch discards the prior batch entirely (whatever its
selected flags were) and installs exactly the parsed records, every one with
`selected = false`. -/
theorem refresh_resets_selection (m : Model) (entryText : List Char)
    (gs : List GameElem) (h : (pyStrip entryText).isEmpty = false) :
    (on_refresh_click m entryText
        (NetResult.success (XmlParse.games gs))).model.games_store
      = (parseGames gs).map
          (fun pr => { toggled := false, app_id := pr.1, name := pr.2 })
    ∧ ∀ r ∈ (on_refresh_click m entryText
        (NetResult.success (XmlParse.games gs))).model.games_store,
        r.toggled = false := by
  have h1 : (on_refresh_click m entryText
      (NetResult.success (XmlParse.games gs))).model.games_store
      = (parseGames gs).map
          (fun pr => { toggled := false, app_id := pr.1, name := pr.2 }) := by
    simp [on_refresh_click, h]
  refine ⟨h1, ?_⟩
  rw [h1]
  intro r hr
  rcases List.mem_map.mp hr with ⟨pr, _, rfl⟩
  rfl

/-- C4 witness: a prior batch with a selection, replaced by one parsed
record. -/
theorem refresh_resets_selection_witness :
    (pyStrip ['p']).isEmpty = false
    ∧ (on_refresh_click
        { games_store := [{ toggled := true, app_id := ['9'], name := ['o'] }],
          search_text := [] }
        ['p']
        (NetResult.success
          (XmlParse.games [{ appID := some (some ['1']), name := some (some ['g']) }]))).model.games_store
      = (parseGames [{ appID := some (some ['1']), name := some (some ['g']) }]).map
          (fun pr => { toggled := false, app_id := pr.1, name := pr.2 }) :=
  ⟨by decide, (refresh_resets_selection _ _ _ (by decide)).1⟩

theorem recordOf_eq_goodGame (g : GameElem) :
    recordOf g
      = if goodGame g
        then some ((optText g.appID).getD [], (optText g.name).getD [])
        else none := by
  rcases g with ⟨a, n⟩
  rcases a with _ | (_ | s) <;> rcases n with _ | (_ | t) <;>
    simp [recordOf, goodGame, optText, pyTruthy]

/-- C5: for a well-formed response, the parsed record sequence has exactly one
record per `<game>` element having both an `appID` child and a `name` child
with non-empty text (carrying those texts), and no record for any other
`<game>` element; skipping is silent — the parse is total and produces no
error. -/
theorem parse_keeps_exactly_good_games (gs : List GameElem) :
    parseGames gs
      = (gs.filter goodGame).map
          (fun g => ((optText g.appID).getD [], (optText g.name).getD [])) := by
  induction gs with
  | nil => rfl
  | cons g t ih =>
    cases hg : goodGame g with
    | false =>
      simp [parseGames, List.filterMap_cons, recordOf_eq_goodGame, hg,
            List.filter_cons, parseGames] at ih ⊢
      exact ih
    | true =>
      simp [parseGames, List.filterMap_cons, recordOf_eq_goodGame, hg,
            List.filter_cons, parseGames] at ih ⊢
      exact ih

theorem writeLoop_eq (D : List Char) (fsOk : List Char → Bool)
    (l : List GameRow) :
    writeLoop D fsOk l
      = { invalidPath := false,
          writes := (l.filter (fun r => r.toggled && fsOk (manifestPath D r.app_id))).map
                      (fun r => (manifestPath D r.app_id, manifestContent r.app_id r.name)),
          failures := (l.filter (fun r => r.toggled && !fsOk (manifestPath D r.app_id))).map
                      (fun r => r.name),
          created_count :=
            (l.filter (fun r => r.toggled && fsOk (manifestPath D r.app_id))).length } := by
  induction l with
  | nil => rfl
  | cons row rest ih =>
    cases ht : row.toggled with
    | false => simp [writeLoop, ht, List.filter_cons, ih]
    | true =>
      cases hf : fsOk (manifestPath D row.app_id) with
      | false => simp [writeLoop, ht, hf, List.filter_cons, ih]
      | true => simp [writeLoop, ht, hf, List.filter_cons, ih]

theorem filter_selected (m : Model) (pred : GameRow → Bool) :
    (selectedRecords m).filter pred
      = m.games_store.filter (fun r => r.toggled && pred r) := by
  unfold selectedRecords
  rw [List.filter_filter]
  exact List.filter_congr (fun x _ => Bool.and_comm _ _)

/-- C6: with an existing library directory and no write failures, Download
writes, for each selected record in order, the file
`D/appmanifest_<app_id>.acf` with exactly the rendered template as content
(the display name substituted into both the `name` and `installdir` fields by
`manifestContent`), reports no failures, and counts every selected record as
a success. -/
theorem download_success_writes_all (m : Model) (D : List Char) :
    on_download_click m D true (fun _ => true)
      = { invalidPath := false,
          writes := (selectedRecords m).map
            (fun r => (manifestPath D r.app_id, manifestContent r.app_id r.name)),
          failures := [],
          created_count := (selectedRecords m).length } := by
  show writeLoop D (fun _ => true) m.games_store = _
  rw [writeLoop_eq]
  simp [selectedRecords]

/-- C7: when the library path is not an existing directory, Download fails
wholesale with the invalid-path message and performs no write at all, no
matter which records are selected. -/
theorem download_invalid_path (m : Model) (D : List Char)
    (fsOk : List Char → Bool) :
    on_download_click m D false fsOk
      = { invalidPath := true, writes := [], failures := [], created_count := 0 } :=
  rfl

/-- C8: under any pattern of per-file failures, every selected record is still
processed — the successful ones are written, each failing one is recorded (by
name) against that record — and the final count equals the number of selected
records whose write succeeded. -/
theorem download_per_file_failure_continues (m : Model) (D : List Char)
    (fsOk : List Char → Bool) :
    (on_download_click m D true fsOk).writes
      = ((selectedRecords m).filter (fun r => fsOk (manifestPath D r.app_id))).map
          (fun r => (manifestPath D r.app_id, manifestContent r.app_id r.name))
    ∧ (on_download_click m D true fsOk).failures
      = ((selectedRecords m).filter (fun r => !fsOk (manifestPath D r.app_id))).map
          (fun r => r.name)
    ∧ (on_download_click m D true fsOk).created_count
      = ((selectedRecords m).filter (fun r => fsOk (manifestPath D r.app_id))).length := by
  have h : on_download_click m D true fsOk = writeLoop D fsOk m.games_store := rfl
  rw [h, writeLoop_eq, filter_selected, filter_selected]
  exact ⟨rfl, rfl, rfl⟩
